import Mathlib

/-!
Verification of the srtgo acquisition engine (src/srtgo/srtgo.py).

The Python source is shallowly embedded: pure decision code becomes Lean
functions; the polling loop becomes a fuel-indexed recursion over a script of
cycle events; effects (notification, operator prompt, sleep, re-login) become
explicit fields of a handler-result record.  Train seat-availability accessors
live in the provider modules (srt/ktx) that are not among the sources, so they
are modelled from the spec where noted.
-/

namespace Srtgo

/-! ## Candidates and seat-type policies -/

/-- Seat-type policy; `SeatType` in the SRT provider, `ReserveOption` in the
KTX provider, with the same four variants. -/
inductive SeatType where
  | generalFirst
  | generalOnly
  | specialFirst
  | specialOnly
deriving DecidableEq

/-- The two backend provider variants. -/
inductive RailType where
  | srt
  | ktx
deriving DecidableEq

/-- Modelled from the spec: a candidate train snapshot carries availability
flags for a general-class seat, a special-class seat and a waiting-list slot;
the concrete accessors live in the srt/ktx provider modules, which are not
among the sources. -/
structure Candidate where
  general : Bool
  special : Bool
  waitlist : Bool
deriving DecidableEq

/-- Modelled from the spec: `train.seat_available()` — a seat of any class
(general or special) is available. -/
def seat_available (train : Candidate) : Bool :=
  train.general || train.special

/-- Modelled from the spec: `train.general_seat_available()`. -/
def general_seat_available (train : Candidate) : Bool :=
  train.general

/-- Modelled from the spec: `train.special_seat_available()`. -/
def special_seat_available (train : Candidate) : Bool :=
  train.special

/-- Modelled from the spec: `train.reserve_standby_available()` — a
waiting-list slot is open. -/
def reserve_standby_available (train : Candidate) : Bool :=
  train.waitlist

/-- Modelled from the spec: KTX `train.has_seat()`, same meaning as the SRT
accessor `seat_available`. -/
def has_seat (train : Candidate) : Bool :=
  train.general || train.special

/-- Modelled from the spec: KTX `train.has_general_seat()`. -/
def has_general_seat (train : Candidate) : Bool :=
  train.general

/-- Modelled from the spec: KTX `train.has_special_seat()`. -/
def has_special_seat (train : Candidate) : Bool :=
  train.special

/-- Modelled from the spec: KTX `train.has_waiting_list()`. -/
def has_waiting_list (train : Candidate) : Bool :=
  train.waitlist

/-- `_is_seat_available(train, seat_type, rail_type)` from the source: the
SRT branch tests `seat_available`/`reserve_standby_available`, the KTX branch
the `has_*` accessors, with the same four-step `if` chain. -/
def is_seat_available (train : Candidate) (seat_type : SeatType)
    (rail_type : RailType) : Bool :=
  match rail_type with
  | .srt =>
    if !(seat_available train) then
      reserve_standby_available train
    else if seat_type = .generalFirst || seat_type = .specialFirst then
      seat_available train
    else if seat_type = .generalOnly then
      general_seat_available train
    else
      special_seat_available train
  | .ktx =>
    if !(has_seat train) then
      has_waiting_list train
    else if seat_type = .generalFirst || seat_type = .specialFirst then
      has_seat train
    else if seat_type = .generalOnly then
      has_general_seat train
    else
      has_special_seat train

/-- The spec's four-step decision table for `isReservable`, written from the
spec's words for comparison against the source function. -/
def specIsReservable (train : Candidate) (policy : SeatType) : Bool :=
  if !(train.general || train.special) then
    train.waitlist
  else
    match policy with
    | .generalFirst => train.general || train.special
    | .specialFirst => train.general || train.special
    | .generalOnly => train.general
    | .specialOnly => train.special

/-! ## Substring matching (Python `in` on strings) -/

/-- Whether `needle` is an initial segment of `hay` (character lists). -/
def hasPrefixCL : List Char → List Char → Bool
  | [], _ => true
  | _ :: _, [] => false
  | a :: as, b :: bs => a == b && hasPrefixCL as bs

/-- Whether `needle` occurs contiguously inside `hay` (character lists). -/
def containsCL (needle : List Char) : List Char → Bool
  | [] => needle.isEmpty
  | b :: bs => hasPrefixCL needle (b :: bs) || containsCL needle bs

/-- Python's `needle in hay` on strings. -/
def containsStr (needle hay : String) : Bool :=
  containsCL needle.data hay.data

/-! ## Error classification and the except-clause handlers

The loop body catches `SRTError`, `KorailError`, `JSONDecodeError`,
`ConnectionError` and a bare `Exception`, in that order; each clause branches
on substring tests of the raw message.  `_handle_error` prints, sends a
Telegram notification and asks the operator a yes/no continue question. -/

/-- The SRTError bot-detection test: the message mentions the
normal-channel text, or the exception is an `SRTNetFunnelError`. -/
def srtBot (netfunnel : Bool) (msg : String) : Bool :=
  containsStr "정상적인 경로로 접근 부탁드립니다" msg || netfunnel

/-- The SRTError session-expiry test. -/
def srtLogin (msg : String) : Bool :=
  containsStr "로그인 후 사용하십시오" msg

/-- The SRTError transient sold-out test: any of the four silent patterns. -/
def isSoldOutSRT (msg : String) : Bool :=
  containsStr "잔여석없음" msg ||
  containsStr "사용자가 많아 접속이 원활하지 않습니다" msg ||
  containsStr "예약대기 접수가 마감되었습니다" msg ||
  containsStr "예약대기자한도수초과" msg

/-- The KorailError session-expiry test. -/
def korailLogin (msg : String) : Bool :=
  containsStr "Need to Login" msg

/-- The KorailError transient sold-out test: any of the three silent
patterns. -/
def isSoldOutKorail (msg : String) : Bool :=
  containsStr "Sold out" msg ||
  containsStr "잔여석없음" msg ||
  containsStr "예약대기자한도수초과" msg

/-- The exception kinds the loop body distinguishes, with the data its
branching inspects: the raw message, and for SRT whether the exception is an
`SRTNetFunnelError`. -/
inductive ExKind where
  | srt (netfunnel : Bool) (msg : String)
  | korail (msg : String)
  | jsonDecode
  | connection
  | generic
deriving DecidableEq

/-- The spec's error categories (§4.4). -/
inductive ErrCategory where
  | botDetected
  | sessionExpired
  | soldOutTransient
  | malformedResponse
  | connectivityError
  | unclassified
deriving DecidableEq

/-- Classification of an SRTError by the source's `if`/`elif` chain. -/
def classifySRT (netfunnel : Bool) (msg : String) : ErrCategory :=
  if srtBot netfunnel msg then .botDetected
  else if srtLogin msg then .sessionExpired
  else if !(isSoldOutSRT msg) then .unclassified
  else .soldOutTransient

/-- Classification of a KorailError by the source's `if`/`elif` chain. -/
def classifyKorail (msg : String) : ErrCategory :=
  if korailLogin msg then .sessionExpired
  else if !(isSoldOutKorail msg) then .unclassified
  else .soldOutTransient

/-- The ErrorClassifier: which category each caught exception falls into,
following the except-clause order and substring tests of the source. -/
def classifyEx : ExKind → ErrCategory
  | .srt netfunnel msg => classifySRT netfunnel msg
  | .korail msg => classifyKorail msg
  | .jsonDecode => .malformedResponse
  | .connection => .connectivityError
  | .generic => .unclassified

/-- Whether the loop body goes on to the next cycle or the `reserve` function
returns. -/
inductive LoopAction where
  | continueLoop
  | exitLoop
deriving DecidableEq

/-- Observable outcome of one except clause: the loop action plus the effects
performed — Telegram notification, operator continue/abort prompt
(`_handle_error`), backoff sleep (`_sleep`), re-login, and clearing the
session-local client state (`rail.clear()`). -/
structure HandlerResult where
  action : LoopAction
  notified : Bool
  prompted : Bool
  slept : Bool
  reauthed : Bool
  cleared : Bool
deriving DecidableEq

/-- The `except SRTError` clause.  `reloginOk` is the `rail.is_login` value
after a re-login; `opYes` the operator's answer to the continue prompt.
`_handle_error` (notify + prompt) runs only where the source calls it, with
Python's short-circuit `and`. -/
def handleSRTError (netfunnel : Bool) (msg : String)
    (reloginOk opYes : Bool) : HandlerResult :=
  if srtBot netfunnel msg then
    ⟨.continueLoop, false, false, true, false, true⟩
  else if srtLogin msg then
    if !reloginOk && !opYes then ⟨.exitLoop, true, true, false, true, false⟩
    else if !reloginOk then ⟨.continueLoop, true, true, true, true, false⟩
    else ⟨.continueLoop, false, false, true, true, false⟩
  else if !(isSoldOutSRT msg) then
    if !opYes then ⟨.exitLoop, true, true, false, false, false⟩
    else ⟨.continueLoop, true, true, true, false, false⟩
  else
    ⟨.continueLoop, false, false, true, false, false⟩

/-- The `except KorailError` clause. -/
def handleKorailError (msg : String) (reloginOk opYes : Bool) : HandlerResult :=
  if korailLogin msg then
    if !reloginOk && !opYes then ⟨.exitLoop, true, true, false, true, false⟩
    else if !reloginOk then ⟨.continueLoop, true, true, true, true, false⟩
    else ⟨.continueLoop, false, false, true, true, false⟩
  else if !(isSoldOutKorail msg) then
    if !opYes then ⟨.exitLoop, true, true, false, false, false⟩
    else ⟨.continueLoop, true, true, true, false, false⟩
  else
    ⟨.continueLoop, false, false, true, false, false⟩

/-- The `except JSONDecodeError` clause: sleep, re-login, continue; no
notification, no prompt. -/
def handleJSONDecode : HandlerResult :=
  ⟨.continueLoop, false, false, true, true, false⟩

/-- The `except ConnectionError` clause: `_handle_error` with a fixed
message; on decline return, on continue re-login (no sleep). -/
def handleConnection (opYes : Bool) : HandlerResult :=
  if !opYes then ⟨.exitLoop, true, true, false, false, false⟩
  else ⟨.continueLoop, true, true, false, true, false⟩

/-- The final `except Exception` clause: `_handle_error`; on decline return,
on continue re-login (no sleep). -/
def handleGeneric (opYes : Bool) : HandlerResult :=
  if !opYes then ⟨.exitLoop, true, true, false, false, false⟩
  else ⟨.continueLoop, true, true, false, true, false⟩

/-- One caught exception, routed to its except clause. -/
def handleException : ExKind → Bool → Bool → HandlerResult
  | .srt netfunnel msg, reloginOk, opYes => handleSRTError netfunnel msg reloginOk opYes
  | .korail msg, reloginOk, opYes => handleKorailError msg reloginOk opYes
  | .jsonDecode, _, _ => handleJSONDecode
  | .connection, _, opYes => handleConnection opYes
  | .generic, _, opYes => handleGeneric opYes

/-! ## The acquisition loop

`reserve()`'s `while True:` body: poll `search_train`, scan the operator's
selection in its fixed list order, reserve the first qualifying candidate and
return; otherwise sleep and repeat.  A raised exception is routed to its
except clause, which either continues the loop or returns. -/

/-- The `for i in choice["trains"]` scan of one poll result: the first index,
in the selection's fixed order, whose train passes `is_seat_available`.
`trains` maps a positional index to the candidate the poll returned there. -/
def scanSelection (sel : List Nat) (trains : Nat → Candidate)
    (seat_type : SeatType) (rail_type : RailType) : Option Nat :=
  match sel with
  | [] => none
  | i :: rest =>
    if is_seat_available (trains i) seat_type rail_type then some i
    else scanSelection rest trains seat_type rail_type

/-- What one loop cycle encounters: either `search_train` returns a poll
result, or a call raises an exception. -/
inductive CycleEvent where
  | poll (trains : Nat → Candidate)
  | raised (ex : ExKind)

/-- How a run of the loop ends. -/
inductive LoopEnd where
  | reserved (cycle idx : Nat)
  | aborted (cycle : Nat)
  | fuelOut
deriving DecidableEq

/-- The `while True:` loop, fuel-indexed.  `script` gives each cycle's event,
`reloginOk`/`opYes` the environment's answers (post-re-login `is_login`, and
the operator's continue answer) if that cycle consults them. -/
def runLoop (script : Nat → CycleEvent) (sel : List Nat)
    (seat_type : SeatType) (rail_type : RailType)
    (reloginOk opYes : Nat → Bool) : Nat → Nat → LoopEnd
  | 0, _ => .fuelOut
  | fuel + 1, cycle =>
    match script cycle with
    | .poll trains =>
      match scanSelection sel trains seat_type rail_type with
      | some i => .reserved cycle i
      | none => runLoop script sel seat_type rail_type reloginOk opYes fuel (cycle + 1)
    | .raised ex =>
      match (handleException ex (reloginOk cycle) (opYes cycle)).action with
      | .continueLoop => runLoop script sel seat_type rail_type reloginOk opYes fuel (cycle + 1)
      | .exitLoop => .aborted cycle

/-- Outcome of `_reserve(train)`: the reservation itself has succeeded (the
success banner prints before any payment), and the card payment happens only
when configured, the reservation is not waiting-list, and `pay_card`
succeeds. -/
structure ReserveOutcome where
  success : Bool
  paid : Bool
deriving DecidableEq

/-- `_reserve`'s observable outcome as a function of the auto-pay
configuration, the waiting-list state of the reservation, and whether
`pay_card` succeeds. -/
def attemptReserve (payCfg isWaiting payOk : Bool) : ReserveOutcome :=
  ⟨true, payCfg && !isWaiting && payOk⟩

/-! ## Pre-loop input validation -/

/-- Passenger classes of the composition (same five on both providers). -/
inductive PassengerClass where
  | adult
  | child
  | senior
  | disability1to3
  | disability4to6
deriving DecidableEq

/-- The prompt answers `reserve` validates: stations, the always-present
adult count, and the optional counts that are asked only when enabled in the
options. -/
structure PromptInfo where
  departure : String
  arrival : String
  adult : Nat
  child : Option Nat
  senior : Option Nat
  disability1to3 : Option Nat
  disability4to6 : Option Nat

/-- One step of the passenger-building loop: include the class iff its key is
present in `info` and its count is positive. -/
def passengerEntry (cls : PassengerClass) : Option Nat → List (PassengerClass × Nat)
  | none => []
  | some n => if 0 < n then [(cls, n)] else []

/-- The `passengers` list built over `passenger_classes` in its fixed order. -/
def buildPassengers (info : PromptInfo) : List (PassengerClass × Nat) :=
  passengerEntry .adult (some info.adult) ++
  passengerEntry .child info.child ++
  passengerEntry .senior info.senior ++
  passengerEntry .disability1to3 info.disability1to3 ++
  passengerEntry .disability4to6 info.disability4to6

/-- `total_count`, accumulated over the same entries. -/
def totalCount (info : PromptInfo) : Nat :=
  ((buildPassengers info).map Prod.snd).sum

/-- How the validation phase of `reserve` ends. -/
inductive ReserveStep where
  | sameStationError
  | noPassengerError
  | tooManyError
  | searchIssued
deriving DecidableEq

/-- The checks `reserve` runs between the prompt and the first
`search_train` call, in source order: same-station check (before the
preferences are saved), then the passenger-count checks (after).  The second
component records whether the preferences were saved before returning. -/
def reservePrecheck (info : PromptInfo) : ReserveStep × Bool :=
  if info.departure = info.arrival then (.sameStationError, false)
  else if buildPassengers info = [] then (.noPassengerError, true)
  else if 10 ≤ totalCount info then (.tooManyError, true)
  else (.searchIssued, true)

/-! ## Backoff scheduler -/

/-- `RESERVE_INTERVAL_SHAPE` from the source. -/
def RESERVE_INTERVAL_SHAPE : ℚ := 4

/-- `RESERVE_INTERVAL_SCALE` from the source (0.25). -/
def RESERVE_INTERVAL_SCALE : ℚ := 1 / 4

/-- `RESERVE_INTERVAL_MIN` from the source (0.25). -/
def RESERVE_INTERVAL_MIN : ℚ := 1 / 4

/-- The duration `_sleep` passes to `time.sleep`, as a function of the value
`gammavariate(RESERVE_INTERVAL_SHAPE, RESERVE_INTERVAL_SCALE)` returned. -/
def sleepDelay (gammaDraw : ℚ) : ℚ :=
  gammaDraw + RESERVE_INTERVAL_MIN

/-- Modelled from the spec: `gammavariate` is external; a Gamma(k, θ) draw is
nonnegative and its distribution mean is k·θ. -/
def gammaMean (shape scale : ℚ) : ℚ :=
  shape * scale

/-! ## Theorems -/

/-- C1: for every candidate and policy, on both providers, the availability
check follows the spec's exact four-step decision table: with no seat of any
class it answers by the waiting list regardless of policy; otherwise both
"*First" policies answer by any-seat availability, GeneralOnly by the
general-class flag, SpecialOnly by the special-class flag. -/
theorem is_seat_available_matches_spec_table
    (train : Candidate) (policy : SeatType) (rail_type : RailType) :
    is_seat_available train policy rail_type = specIsReservable train policy := by
  rcases train with ⟨g, s, w⟩
  cases rail_type <;> cases policy <;> cases g <;> cases s <;> cases w <;> rfl

/-- C2: each poll cycle scans the selection from the start in its fixed list
order and picks the first index whose train passes the availability check;
in particular on selection [idx2, idx0, idx1] with both idx0 and idx2
qualifying, the scan yields idx2, never idx0. -/
theorem scan_follows_selection_order
    (sel : List Nat) (trains : Nat → Candidate)
    (seat_type : SeatType) (rail_type : RailType) :
    scanSelection sel trains seat_type rail_type
      = sel.find? (fun i => is_seat_available (trains i) seat_type rail_type) ∧
    (∀ idx0 idx1 idx2,
      is_seat_available (trains idx0) seat_type rail_type = true →
      is_seat_available (trains idx2) seat_type rail_type = true →
      scanSelection [idx2, idx0, idx1] trains seat_type rail_type = some idx2) := by
  constructor
  · induction sel with
    | nil => rfl
    | cons i rest ih =>
      cases h : is_seat_available (trains i) seat_type rail_type <;>
        simp [scanSelection, List.find?, h, ih]
  · intro idx0 idx1 idx2 _ h2
    simp [scanSelection, h2]

/-- Witness for C2 at a concrete selection and poll result. -/
theorem scan_follows_selection_order_witness :
    is_seat_available (⟨true, false, false⟩ : Candidate) .generalFirst .srt = true ∧
    scanSelection [2, 0, 1] (fun _ => (⟨true, false, false⟩ : Candidate))
      .generalFirst .srt = some 2 :=
  ⟨by decide,
   (scan_follows_selection_order [2, 0, 1] (fun _ => ⟨true, false, false⟩)
      .generalFirst .srt).2 0 1 2 (by decide) (by decide)⟩

/-- C7: once a poll cycle finds a qualifying candidate, the loop reserves it
and ends as Terminated(Success) in that same cycle — no further search or
reserve calls — and the optional auto-pay attempt never affects the
reservation's success. -/
theorem reserve_success_terminates
    (script : Nat → CycleEvent) (sel : List Nat)
    (seat_type : SeatType) (rail_type : RailType)
    (reloginOk opYes : Nat → Bool) (fuel cycle i : Nat)
    (trains : Nat → Candidate)
    (hscript : script cycle = .poll trains)
    (hscan : scanSelection sel trains seat_type rail_type = some i) :
    runLoop script sel seat_type rail_type reloginOk opYes (fuel + 1) cycle
      = .reserved cycle i ∧
    (∀ payCfg isWaiting payOk,
      (attemptReserve payCfg isWaiting payOk).success = true) := by
  refine ⟨?_, fun _ _ _ => rfl⟩
  simp [runLoop, hscript, hscan]

/-- Witness for C7 at a concrete script, with and without auto-pay. -/
theorem reserve_success_terminates_witness :
    runLoop (fun _ => .poll (fun _ => ⟨true, false, false⟩)) [0]
      .generalOnly .srt (fun _ => true) (fun _ => true) 3 0 = .reserved 0 0 ∧
    (attemptReserve true false false).success = true :=
  ⟨(reserve_success_terminates (fun _ => .poll (fun _ => ⟨true, false, false⟩))
      [0] .generalOnly .srt (fun _ => true) (fun _ => true) 2 0 0
      (fun _ => ⟨true, false, false⟩) rfl (by decide)).1,
   (reserve_success_terminates (fun _ => .poll (fun _ => ⟨true, false, false⟩))
      [0] .generalOnly .srt (fun _ => true) (fun _ => true) 2 0 0
      (fun _ => ⟨true, false, false⟩) rfl (by decide)).2 true false false⟩

/-- Any exception classified SessionExpired, handled when the re-login
succeeded, continues the loop silently: no notification, no prompt, session
replaced. -/
theorem handleException_sessionExpired (ex : ExKind) (o : Bool)
    (h : classifyEx ex = .sessionExpired) :
    handleException ex true o = ⟨.continueLoop, false, false, true, true, false⟩ := by
  cases ex with
  | srt netfunnel msg =>
    simp only [classifyEx, classifySRT] at h
    split_ifs at h with h1 h2 h3
    simp_all [handleException, handleSRTError]
  | korail msg =>
    simp only [classifyEx, classifyKorail] at h
    split_ifs at h with h1 h2
    simp_all [handleException, handleKorailError]
  | jsonDecode => simp [classifyEx] at h
  | connection => simp [classifyEx] at h
  | generic => simp [classifyEx] at h

/-- Any exception classified SoldOutTransient is handled silently: sleep and
continue, no notification, no prompt, no re-login. -/
theorem handleException_soldOut (ex : ExKind) (reloginOk opYes : Bool)
    (h : classifyEx ex = .soldOutTransient) :
    handleException ex reloginOk opYes
      = ⟨.continueLoop, false, false, true, false, false⟩ := by
  cases ex with
  | srt netfunnel msg =>
    simp only [classifyEx, classifySRT] at h
    split_ifs at h with h1 h2 h3
    simp_all [handleException, handleSRTError]
  | korail msg =>
    simp only [classifyEx, classifyKorail] at h
    split_ifs at h with h1 h2
    simp_all [handleException, handleKorailError]
  | jsonDecode => simp [classifyEx] at h
  | connection => simp [classifyEx] at h
  | generic => simp [classifyEx] at h

/-- Any exception classified Unclassified, with the operator declining the
continue prompt, makes the clause return. -/
theorem handleException_unclassified_decline (ex : ExKind) (reloginOk : Bool)
    (h : classifyEx ex = .unclassified) :
    handleException ex reloginOk false
      = ⟨.exitLoop, true, true, false, false, false⟩ := by
  cases ex with
  | srt netfunnel msg =>
    simp only [classifyEx, classifySRT] at h
    split_ifs at h with h1 h2 h3
    simp_all [handleException, handleSRTError]
  | korail msg =>
    simp only [classifyEx, classifyKorail] at h
    split_ifs at h with h1 h2
    simp_all [handleException, handleKorailError]
  | jsonDecode => simp [classifyEx] at h
  | connection => simp [classifyEx] at h
  | generic => rfl

/-- C3: an error classified SessionExpired whose re-authentication succeeds
resumes polling — the loop does not terminate, the operator is not prompted,
and nothing is re-raised: the cycle steps straight to the next one. -/
theorem session_expired_resumes
    (ex : ExKind) (script : Nat → CycleEvent) (sel : List Nat)
    (seat_type : SeatType) (rail_type : RailType)
    (reloginOk opYes : Nat → Bool) (fuel cycle : Nat)
    (hclass : classifyEx ex = .sessionExpired)
    (hscript : script cycle = .raised ex)
    (hrelogin : reloginOk cycle = true) :
    (handleException ex (reloginOk cycle) (opYes cycle)).action = .continueLoop ∧
    (handleException ex (reloginOk cycle) (opYes cycle)).prompted = false ∧
    (handleException ex (reloginOk cycle) (opYes cycle)).reauthed = true ∧
    runLoop script sel seat_type rail_type reloginOk opYes (fuel + 1) cycle
      = runLoop script sel seat_type rail_type reloginOk opYes fuel (cycle + 1) := by
  rw [hrelogin]
  have hh := handleException_sessionExpired ex (opYes cycle) hclass
  refine ⟨by rw [hh], by rw [hh], by rw [hh], ?_⟩
  simp [runLoop, hscript, hrelogin, hh]

/-- Witness for C3: a Korail need-to-login error with a successful
re-login. -/
theorem session_expired_resumes_witness :
    classifyEx (.korail "Need to Login") = .sessionExpired ∧
    (handleException (.korail "Need to Login") true true).action = .continueLoop ∧
    (handleException (.korail "Need to Login") true true).prompted = false ∧
    runLoop (fun _ => .raised (.korail "Need to Login")) [] .generalFirst .ktx
        (fun _ => true) (fun _ => true) 1 0
      = runLoop (fun _ => .raised (.korail "Need to Login")) [] .generalFirst .ktx
        (fun _ => true) (fun _ => true) 0 1 := by
  have h := session_expired_resumes (.korail "Need to Login")
      (fun _ => .raised (.korail "Need to Login")) [] .generalFirst .ktx
      (fun _ => true) (fun _ => true) 0 0 (by decide) rfl rfl
  exact ⟨by decide, h.1, h.2.1, h.2.2.2⟩

/-- C4: an error classified SoldOutTransient is retried silently: no
notification, no prompt, a backoff sleep, and the loop steps to the next
cycle. -/
theorem soldout_silent_retry
    (ex : ExKind) (script : Nat → CycleEvent) (sel : List Nat)
    (seat_type : SeatType) (rail_type : RailType)
    (reloginOk opYes : Nat → Bool) (fuel cycle : Nat)
    (hclass : classifyEx ex = .soldOutTransient)
    (hscript : script cycle = .raised ex) :
    (handleException ex (reloginOk cycle) (opYes cycle)).notified = false ∧
    (handleException ex (reloginOk cycle) (opYes cycle)).prompted = false ∧
    (handleException ex (reloginOk cycle) (opYes cycle)).slept = true ∧
    (handleException ex (reloginOk cycle) (opYes cycle)).action = .continueLoop ∧
    runLoop script sel seat_type rail_type reloginOk opYes (fuel + 1) cycle
      = runLoop script sel seat_type rail_type reloginOk opYes fuel (cycle + 1) := by
  have hh := handleException_soldOut ex (reloginOk cycle) (opYes cycle) hclass
  refine ⟨by rw [hh], by rw [hh], by rw [hh], by rw [hh], ?_⟩
  simp [runLoop, hscript, hh]

/-- Witness for C4: an SRT no-remaining-seat error. -/
theorem soldout_silent_retry_witness :
    classifyEx (.srt false "잔여석없음") = .soldOutTransient ∧
    (handleException (.srt false "잔여석없음") true true).notified = false ∧
    (handleException (.srt false "잔여석없음") true true).prompted = false ∧
    (handleException (.srt false "잔여석없음") true true).action = .continueLoop := by
  have h := soldout_silent_retry (.srt false "잔여석없음")
      (fun _ => .raised (.srt false "잔여석없음")) [] .generalFirst .srt
      (fun _ => true) (fun _ => true) 0 0 (by decide) rfl
  exact ⟨by decide, h.1, h.2.1, h.2.2.2.1⟩

/-- C5: an Unclassified error with the operator answering no makes the
reserve function return: the loop ends as Terminated(Aborted) in that cycle
and issues no further search or reserve calls. -/
theorem unclassified_decline_aborts
    (ex : ExKind) (script : Nat → CycleEvent) (sel : List Nat)
    (seat_type : SeatType) (rail_type : RailType)
    (reloginOk opYes : Nat → Bool) (fuel cycle : Nat)
    (hclass : classifyEx ex = .unclassified)
    (hscript : script cycle = .raised ex)
    (hno : opYes cycle = false) :
    (handleException ex (reloginOk cycle) (opYes cycle)).action = .exitLoop ∧
    runLoop script sel seat_type rail_type reloginOk opYes (fuel + 1) cycle
      = .aborted cycle := by
  rw [hno]
  have hh := handleException_unclassified_decline ex (reloginOk cycle) hclass
  refine ⟨by rw [hh], ?_⟩
  simp [runLoop, hscript, hno, hh]

/-- Witness for C5: an uncategorised exception, operator declines. -/
theorem unclassified_decline_aborts_witness :
    classifyEx .generic = .unclassified ∧
    (handleException .generic true false).action = .exitLoop ∧
    runLoop (fun _ => .raised .generic) [] .generalFirst .srt
      (fun _ => true) (fun _ => false) 1 0 = .aborted 0 := by
  have h := unclassified_decline_aborts .generic
      (fun _ => .raised .generic) [] .generalFirst .srt
      (fun _ => true) (fun _ => false) 0 0 rfl rfl rfl
  exact ⟨rfl, h.1, h.2⟩

/-- C6 counterexample: a MalformedResponse recovery (JSONDecodeError) sends
no notification, and neither does a SessionExpired recovery whose re-login
succeeded — though neither category is SoldOutTransient or BotDetected. -/
theorem notification_coverage_counterexample :
    classifyEx .jsonDecode = .malformedResponse ∧
    (handleException .jsonDecode true true).notified = false ∧
    classifyEx (.srt false "로그인 후 사용하십시오") = .sessionExpired ∧
    (handleException (.srt false "로그인 후 사용하십시오") true true).notified
      = false := by
  exact ⟨rfl, rfl, by decide, by decide⟩

/-- C6 amended: a recovery notifies exactly when the category is
ConnectivityError or Unclassified, or it is SessionExpired and the re-login
failed; SoldOutTransient, BotDetected and MalformedResponse are silent, and
so is a SessionExpired recovery whose re-login succeeded. -/
theorem notification_coverage_amended (ex : ExKind) (reloginOk opYes : Bool) :
    (handleException ex reloginOk opYes).notified =
      (match classifyEx ex with
       | .connectivityError => true
       | .unclassified => true
       | .sessionExpired => !reloginOk
       | _ => false) := by
  cases ex with
  | srt netfunnel msg =>
    cases h1 : srtBot netfunnel msg <;> cases h2 : srtLogin msg <;>
      cases h3 : isSoldOutSRT msg <;> cases reloginOk <;> cases opYes <;>
      simp [classifyEx, classifySRT, handleException, handleSRTError, h1, h2, h3]
  | korail msg =>
    cases h1 : korailLogin msg <;> cases h2 : isSoldOutKorail msg <;>
      cases reloginOk <;> cases opYes <;>
      simp [classifyEx, classifyKorail, handleException, handleKorailError, h1, h2]
  | jsonDecode => rfl
  | connection => cases opYes <;> rfl
  | generic => cases opYes <;> rfl

/-- C8: every `_sleep` delay is the Gamma draw plus the fixed 0.25 s floor,
hence at least 0.25 s for any (nonnegative) draw; the shape-4, scale-0.25
parameters give the draw mean 1.0 s and the delay mean 1.25 s. -/
theorem sleep_delay_floor_and_mean :
    (∀ gammaDraw : ℚ, 0 ≤ gammaDraw →
      RESERVE_INTERVAL_MIN ≤ sleepDelay gammaDraw) ∧
    (∀ gammaDraw : ℚ, sleepDelay gammaDraw = gammaDraw + 1 / 4) ∧
    RESERVE_INTERVAL_SHAPE = 4 ∧
    RESERVE_INTERVAL_SCALE = 1 / 4 ∧
    RESERVE_INTERVAL_MIN = 1 / 4 ∧
    gammaMean RESERVE_INTERVAL_SHAPE RESERVE_INTERVAL_SCALE = 1 ∧
    gammaMean RESERVE_INTERVAL_SHAPE RESERVE_INTERVAL_SCALE
      + RESERVE_INTERVAL_MIN = 5 / 4 := by
  refine ⟨fun g hg => ?_, fun g => rfl, rfl, rfl, rfl, ?_, ?_⟩
  · unfold sleepDelay
    linarith
  · norm_num [gammaMean, RESERVE_INTERVAL_SHAPE, RESERVE_INTERVAL_SCALE]
  · norm_num [gammaMean, RESERVE_INTERVAL_SHAPE, RESERVE_INTERVAL_SCALE,
      RESERVE_INTERVAL_MIN]

/-- Witness for C8 at a concrete draw. -/
theorem sleep_delay_floor_and_mean_witness :
    (0 : ℚ) ≤ 1 ∧ RESERVE_INTERVAL_MIN ≤ sleepDelay 1 :=
  ⟨by norm_num, sleep_delay_floor_and_mean.1 1 (by norm_num)⟩

/-- A passenger-entry list with total count zero is empty: every entry placed
in the list carries a positive count. -/
theorem passengerEntry_eq_nil_of_sum_zero (cls : PassengerClass)
    (oc : Option Nat)
    (h : ((passengerEntry cls oc).map Prod.snd).sum = 0) :
    passengerEntry cls oc = [] := by
  cases oc with
  | none => rfl
  | some n =>
    by_cases hn : 0 < n
    · simp [passengerEntry, hn] at h
      omega
    · simp [passengerEntry, hn]

/-- If `total_count` is zero then the built passenger list is empty. -/
theorem buildPassengers_eq_nil_of_total_zero (info : PromptInfo)
    (h : totalCount info = 0) : buildPassengers info = [] := by
  unfold totalCount at h
  unfold buildPassengers at h ⊢
  simp only [List.map_append, List.sum_append, Nat.add_eq_zero] at h
  obtain ⟨⟨⟨⟨h1, h2⟩, h3⟩, h4⟩, h5⟩ := h
  rw [passengerEntry_eq_nil_of_sum_zero _ _ h1,
    passengerEntry_eq_nil_of_sum_zero _ _ h2,
    passengerEntry_eq_nil_of_sum_zero _ _ h3,
    passengerEntry_eq_nil_of_sum_zero _ _ h4,
    passengerEntry_eq_nil_of_sum_zero _ _ h5]
  rfl

/-- C9: a prompt input whose total passenger count is 0 or at least 10 makes
`reserve` report an error and return before any search or reserve call. -/
theorem invalid_passenger_count_no_search (info : PromptInfo)
    (h : totalCount info = 0 ∨ 10 ≤ totalCount info) :
    ((reservePrecheck info).1 = .sameStationError ∨
     (reservePrecheck info).1 = .noPassengerError ∨
     (reservePrecheck info).1 = .tooManyError) ∧
    (reservePrecheck info).1 ≠ .searchIssued := by
  unfold reservePrecheck
  split_ifs with hd hp ht
  · simp
  · simp
  · simp
  · exfalso
    rcases h with h0 | h10
    · exact hp (buildPassengers_eq_nil_of_total_zero info h0)
    · exact ht h10

/-- Witness for C9: an all-zero passenger composition. -/
theorem invalid_passenger_count_no_search_witness :
    totalCount ⟨"수서", "대전", 0, none, none, none, none⟩ = 0 ∧
    (reservePrecheck ⟨"수서", "대전", 0, none, none, none, none⟩).1
      ≠ .searchIssued :=
  ⟨rfl,
   (invalid_passenger_count_no_search
      ⟨"수서", "대전", 0, none, none, none, none⟩ (Or.inl rfl)).2⟩

/-- C10: equal departure and arrival stations make `reserve` report the
same-station error and return before saving preferences, before any search,
and before the acquisition loop. -/
theorem same_station_aborts_early (info : PromptInfo)
    (h : info.departure = info.arrival) :
    reservePrecheck info = (.sameStationError, false) := by
  unfold reservePrecheck
  simp [h]

/-- Witness for C10 at a concrete same-station input. -/
theorem same_station_aborts_early_witness :
    reservePrecheck ⟨"수서", "수서", 1, none, none, none, none⟩
      = (.sameStationError, false) :=
  same_station_aborts_early ⟨"수서", "수서", 1, none, none, none, none⟩ rfl

end Srtgo
